import Mathlib
/-!
Shallow embedding of the catalog service in `app/product/` (Django REST
framework application): data model (`models.py`), serializers
(`serializers.py`) and view handlers (`views.py`), together with the
TTL cache they use (`django.core.cache` plus the `cache_page` response
cache decorator).

Conventions of the embedding:
* entity rows are Lean structures mirroring the model fields; identities
  (auto primary keys) are `Nat`, timestamps are `Nat` ticks, image blobs
  are represented by the store URL the blob store returns for them;
* the relational store is a `Store` structure holding the four tables as
  lists in insertion order, plus the id counters (auto primary keys are
  assigned in increasing insertion order);
* the cache backend is a map from string keys to a stored serialized
  value together with the TTL it was stored with;
* serialized payloads are the inductive `CVal`, since different keys of
  the shared cache backend hold payloads of different shapes;
* Python `float(...)` on a price string is modelled by `pyFloatOfString`
  (sign, decimal digits with optional fraction and exponent, and the
  case-insensitive special strings inf / infinity / nan), returning a
  `PyFloat`: an exact finite value `m * 10 ^ e`, an infinity, or nan.
-/

set_option linter.unnecessarySeqFocus false
/-- Row of `Category` (`models.py`): title, image reference, creation
timestamp (field name `crated_at` kept verbatim from the source). -/
structure Category where
  id : Nat
  title : String
  image : String
  crated_at : Nat
deriving DecidableEq
/-- Row of `Types` (`models.py`): title, description, foreign key to
`Category` (cascade delete), creation timestamp. -/
structure Types where
  id : Nat
  title : String
  description : String
  category : Nat
  crated_at : Nat
deriving DecidableEq
/-- Row of `Product` (`models.py`): title, description, foreign keys to
`Category` and `Types`, price stored as text, a unique uuid generated at
creation, creation timestamp, active flag (default false). -/
structure Product where
  id : Nat
  title : String
  description : String
  category : Nat
  types_product : Nat
  price : String
  uuid : Nat
  created_at : Nat
  is_active : Bool
deriving DecidableEq
/-- Row of `ProductImage` (`models.py`): foreign key to `Product`
(cascade delete, related name `images`) and the image reference. -/
structure ProductImage where
  id : Nat
  product : Nat
  image : String
deriving DecidableEq
/-- The relational store: the four tables in insertion order, the id
counters for auto primary keys and for the uuid generator, and a clock
supplying `auto_now_add` timestamps. -/
structure Store where
  categories : List Category
  types : List Types
  products : List Product
  images : List ProductImage
  nextProductId : Nat
  nextImageId : Nat
  nextUuid : Nat
  clock : Nat
/-- Well-formedness of the image table: every stored image references an
already-allocated product id (auto primary keys only grow). -/
def Store.WF (s : Store) : Prop :=
  ∀ img ∈ s.images, img.product < s.nextProductId
instance (s : Store) : Decidable s.WF := by
  unfold Store.WF; infer_instance
/-- Serialized category row `\x7bid, title, image, crated_at\x7d`, as produced
both by `CategorySerializer` and by the `.values(...)` query in
`CategoryAPIView.get_queryset`. -/
structure CatOut where
  id : Nat
  title : String
  image : String
  crated_at : Nat
deriving DecidableEq
/-- Serialized `ProductImage` (`ProductImageSerializer`): fields id,
image, image_url (absolutized when a request context is present), and
the owning product. -/
structure ImageOut where
  id : Nat
  image : String
  image_url : Option String
  product : Nat
deriving DecidableEq
/-- Serialized `Product` (`ProductSerializer`): the full read
representation with resolved `category_title`, `types_title`,
`first_image` and the nested `images` list. -/
structure ProductOut where
  id : Nat
  uuid : Nat
  title : String
  description : String
  category : Nat
  category_title : String
  types_product : Nat
  types_title : String
  created_at : Nat
  price : String
  first_image : Option String
  images : List ImageOut
  is_active : Bool
deriving DecidableEq
/-- A serialized payload stored in the cache backend or returned in a
response body. Different cache keys hold payloads of different shapes,
so the value type is a sum. -/
inductive CVal where
  | products : List ProductOut → CVal
  | categories : List CatOut → CVal
  | other : String → CVal
deriving DecidableEq
/-- The cache backend (`django.core.cache`): a key-value store; each
present entry carries the value and the TTL it was stored with. -/
def Cache : Type := String → Option (CVal × Nat)
/-- The empty cache. -/
def emptyCache : Cache := fun _ => none
/-- Embeds `cache.get(key)`: the value if present, else an explicit
absence signal. -/
def cacheGet (c : Cache) (k : String) : Option CVal :=
  (c k).map Prod.fst
/-- Embeds `cache.set(key, value, ttl)`: overwrites any existing entry
for that key. -/
def cacheSet (c : Cache) (k : String) (v : CVal) (ttl : Nat) : Cache :=
  fun q => if q = k then some (v, ttl) else c q
/-- Embeds `cache.delete(key)`: removes the entry if present, no-op
otherwise. -/
def cacheDelete (c : Cache) (k : String) : Cache :=
  fun q => if q = k then none else c q
/-! ### Model of Python `float(...)` applied to a price string -/
/-- Value of a Python float: an exact finite value `m * 10 ^ e` (the
model keeps decimal strings exact rather than rounding to binary), a
signed infinity, or nan. -/
inductive PyFloat where
  | finite (m : Int) (e : Int)
  | inf
  | ninf
  | nan
deriving DecidableEq
/-- Unsigned magnitude recognized by `float(...)` after the optional
sign: a decimal numeral, infinity, or nan. -/
inductive PyMag where
  | num (m : Nat) (e : Int)
  | inf
  | nan
deriving DecidableEq
/-- Consumes leading decimal digits, returning their value, how many
digits were consumed, and the rest of the input. -/
def takeDigits : List Char → Nat → Nat → Nat × Nat × List Char
  | [], acc, n => (acc, n, [])
  | ch :: cs, acc, n =>
    if ch.isDigit then takeDigits cs (10 * acc + (ch.toNat - 48)) (n + 1)
    else (acc, n, ch :: cs)
/-- Parses the exponent suffix after `e`: an optional sign and a
nonempty digit run consuming the whole rest. -/
def parseExp (cs : List Char) : Option Int :=
  match cs with
  | '+' :: rest =>
    match takeDigits rest 0 0 with
    | (v, n, []) => if n = 0 then none else some (Int.ofNat v)
    | _ => none
  | '-' :: rest =>
    match takeDigits rest 0 0 with
    | (v, n, []) => if n = 0 then none else some (-(Int.ofNat v))
    | _ => none
  | rest =>
    match takeDigits rest 0 0 with
    | (v, n, []) => if n = 0 then none else some (Int.ofNat v)
    | _ => none
/-- Parses an unsigned decimal numeral `digits [. digits] [e exp]`,
requiring at least one digit in the integer or fraction part. -/
def parseNum (cs : List Char) : Option PyMag :=
  match takeDigits cs 0 0 with
  | (ip, ni, rest) =>
    match rest with
    | [] => if ni = 0 then none else some (PyMag.num ip 0)
    | '.' :: rest2 =>
      match takeDigits rest2 0 0 with
      | (fp, nf, rest3) =>
        if ni = 0 ∧ nf = 0 then none
        else
          let m := ip * 10 ^ nf + fp
          let e : Int := -(Int.ofNat nf)
          match rest3 with
          | [] => some (PyMag.num m e)
          | 'e' :: rest4 => (parseExp rest4).map (fun x => PyMag.num m (e + x))
          | _ => none
    | 'e' :: rest2 =>
      if ni = 0 then none
      else (parseExp rest2).map (fun x => PyMag.num ip x)
    | _ => none
/-- Parses the magnitude after the optional sign: the case-insensitive
special strings `inf`, `infinity`, `nan`, or a decimal numeral. -/
def parseMag (cs : List Char) : Option PyMag :=
  if cs = ['i', 'n', 'f'] ∨ cs = ['i', 'n', 'f', 'i', 'n', 'i', 't', 'y'] then
    some PyMag.inf
  else if cs = ['n', 'a', 'n'] then some PyMag.nan
  else parseNum cs
/-- Applies a sign to a parsed magnitude; `-nan` is still nan. -/
def applySign (neg : Bool) : PyMag → PyFloat
  | PyMag.num m e => PyFloat.finite (if neg then -(Int.ofNat m) else Int.ofNat m) e
  | PyMag.inf => if neg then PyFloat.ninf else PyFloat.inf
  | PyMag.nan => PyFloat.nan
/-- Strips leading and trailing whitespace characters, modelling Python
`str.strip()`. -/
def stripChars (cs : List Char) : List Char :=
  ((cs.dropWhile Char.isWhitespace).reverse.dropWhile Char.isWhitespace).reverse
/-- Embeds Python `str.strip()` on a string value. -/
def pyStrip (s : String) : String :=
  String.mk (stripChars s.data)
/-- Models Python `float(value)` on a string: surrounding whitespace is
ignored, then an optional sign followed by a decimal numeral (optional
fraction and exponent) or the case-insensitive words inf / infinity /
nan. `none` models the `ValueError` raised on anything else. -/
def pyFloatOfString (s : String) : Option PyFloat :=
  let cs := (stripChars s.data).map Char.toLower
  match cs with
  | '+' :: rest => (parseMag rest).map (applySign false)
  | '-' :: rest => (parseMag rest).map (applySign true)
  | rest => (parseMag rest).map (applySign false)
/-- Embeds the comparison `price_float <= 0` on a Python float: false
for nan (nan comparisons are always false) and for positive infinity,
and the sign test of the mantissa for exact finite values. -/
def pyNonpositive : PyFloat → Bool
  | PyFloat.finite m _ => m ≤ 0
  | PyFloat.inf => false
  | PyFloat.ninf => true
  | PyFloat.nan => false
/-- Comparison `0 < f` on a Python float, used to state what "strictly
positive" means in the specification: false for nan. -/
def pyStrictPos : PyFloat → Bool
  | PyFloat.finite m _ => 0 < m
  | PyFloat.inf => true
  | PyFloat.ninf => false
  | PyFloat.nan => false
/-! ### `ProductCreateSerializer` (`serializers.py`) -/
/-- The creation request body `\x7btitle, description, category,
types_product, price, is_active, images\x7d`; each uploaded image is
identified by the store URL the blob store assigns to it. -/
structure CreatePayload where
  title : String
  description : String
  category : Nat
  types_product : Nat
  price : String
  is_active : Bool
  images : List String
deriving DecidableEq
/-- Error message of `validate_title`. -/
def titleTooShortMsg : String := "Название продукта должно содержать минимум 3 символа"
/-- Error message of `validate_description`. -/
def descTooShortMsg : String := "Описание должно содержать минимум 10 символов"
/-- Error message of the ValueError branch of `validate_price`. -/
def priceNotNumberMsg : String := "Цена должна быть числом"
/-- Error message of the nonpositive branch of `validate_price`. -/
def priceNotPositiveMsg : String := "Цена должна быть положительным числом"
/-- Error message of `validate_category`. -/
def categoryMissingMsg : String := "Указанная категория не существует"
/-- Error message of `validate_types_product`. -/
def typesMissingMsg : String := "Указанный тип не существует"
/-- Embeds `ProductCreateSerializer.validate_title`: the trimmed title
must have at least 3 characters; the trimmed value is kept. -/
def validate_title (value : String) : Except String String :=
  if (pyStrip value).length < 3 then
    Except.error titleTooShortMsg
  else Except.ok (pyStrip value)
/-- Embeds `ProductCreateSerializer.validate_description`: the trimmed
description must have at least 10 characters. -/
def validate_description (value : String) : Except String String :=
  if (pyStrip value).length < 10 then
    Except.error descTooShortMsg
  else Except.ok (pyStrip value)
/-- Embeds `ProductCreateSerializer.validate_price`: `float(value)`
must succeed (else the ValueError branch) and the parsed float must not
compare `<= 0`. The ValidationError raised inside the try block is not
a ValueError, so it propagates past the except clause. -/
def validate_price (value : String) : Except String String :=
  match pyFloatOfString value with
  | none => Except.error priceNotNumberMsg
  | some f =>
    if pyNonpositive f then
      Except.error priceNotPositiveMsg
    else Except.ok value
/-- Embeds `Category.objects.filter(id=value.id).exists()`. -/
def categoryExists (s : Store) (cid : Nat) : Bool :=
  s.categories.any (fun c => c.id == cid)
/-- Embeds `Types.objects.filter(id=value.id).exists()`. -/
def typesExists (s : Store) (tid : Nat) : Bool :=
  s.types.any (fun t => t.id == tid)
/-- Embeds `ProductCreateSerializer.validate_category`: the submitted
category identity must resolve to an existing Category row. -/
def validate_category (s : Store) (cid : Nat) : Except String Nat :=
  if categoryExists s cid then Except.ok cid
  else Except.error categoryMissingMsg
/-- Embeds `ProductCreateSerializer.validate_types_product`: the
submitted type identity must resolve to an existing Types row. -/
def validate_types_product (s : Store) (tid : Nat) : Except String Nat :=
  if typesExists s tid then Except.ok tid
  else Except.error typesMissingMsg
/-- Error entries a single field validator contributes to the
field-keyed error mapping: one entry on failure, none on success. -/
def errOf (field : String) (r : Except String α) : List (String × String) :=
  match r with
  | Except.error e => [(field, e)]
  | Except.ok _ => []
/-- The field-keyed error mapping DRF's `is_valid` builds: every field
validator runs independently and all failures are aggregated (the
serializer's `to_internal_value` collects per-field errors into one
mapping instead of stopping at the first failure). Fields are listed in
their declaration order. -/
def fieldErrors (s : Store) (p : CreatePayload) : List (String × String) :=
  errOf "title" (validate_title p.title) ++
  errOf "description" (validate_description p.description) ++
  errOf "category" (validate_category s p.category) ++
  errOf "types_product" (validate_types_product s p.types_product) ++
  errOf "price" (validate_price p.price)
/-- The validated data on full success: the values the individual
validators returned (title and description trimmed, price kept
verbatim). -/
structure ValidatedData where
  title : String
  description : String
  category : Nat
  types_product : Nat
  price : String
  is_active : Bool
  images : List String
deriving DecidableEq
/-- The validated data built from a payload all of whose validators
succeeded. -/
def validatedOf (p : CreatePayload) : ValidatedData :=
  { title := pyStrip p.title
    description := pyStrip p.description
    category := p.category
    types_product := p.types_product
    price := p.price
    is_active := p.is_active
    images := p.images }
/-- Embeds `serializer.is_valid(raise_exception=True)`: the validated
data when every field validator succeeds, otherwise the aggregated
field-keyed error mapping (surfaced as a 400 response). -/
def runValidators (s : Store) (p : CreatePayload) :
    Except (List (String × String)) ValidatedData :=
  match fieldErrors s p with
  | [] => Except.ok (validatedOf p)
  | e :: es => Except.error (e :: es)
/-- Embeds `Product.objects.create(**validated_data)`: appends the new
Product row, draws a fresh primary key and uuid, stamps `created_at`. -/
def addProductRow (s : Store) (d : ValidatedData) : Store × Product :=
  let prod : Product :=
    { id := s.nextProductId
      title := d.title
      description := d.description
      category := d.category
      types_product := d.types_product
      price := d.price
      uuid := s.nextUuid
      created_at := s.clock
      is_active := d.is_active }
  ({ s with
      products := s.products ++ [prod]
      nextProductId := s.nextProductId + 1
      nextUuid := s.nextUuid + 1
      clock := s.clock + 1 }, prod)
/-- Embeds the image loop of `ProductCreateSerializer.create`: one
`ProductImage.objects.create(product=product, image=image)` per
submitted image, in submission order, each drawing the next primary
key. -/
def addImages (pid : Nat) : Store → List String → Store
  | st, [] => st
  | st, url :: rest =>
    addImages pid
      { st with
          images := st.images ++ [{ id := st.nextImageId, product := pid, image := url }]
          nextImageId := st.nextImageId + 1 } rest
/-- Embeds `ProductCreateSerializer.create`: persist the Product row,
then persist one ProductImage per submitted image in submission order,
and return the created product. -/
def serializerCreate (s : Store) (d : ValidatedData) : Store × Product :=
  let (s1, prod) := addProductRow s d
  (addImages prod.id s1 d.images, prod)
/-- Models `ProductCreateSerializer.create` when persisting the image
at index `k` raises. The source wraps nothing in a transaction and
Django runs in autocommit, so each `objects.create` call has already
committed when the failure occurs: the Product row and the images
before index `k` stay committed and reader-visible. -/
def createFailingAt (s : Store) (d : ValidatedData) (k : Nat) : Store :=
  let (s1, prod) := addProductRow s d
  addImages prod.id s1 (d.images.take k)
/-! ### Serialization (`serializers.py` read path) -/
/-- Embeds `request.build_absolute_uri(url)` when a request context is
present (modelled by the request's host prefix), and the store-relative
URL otherwise. -/
def buildUri (ctx : Option String) (url : String) : String :=
  match ctx with
  | some host => host ++ url
  | none => url
/-- Resolves `category.title` for a product's foreign key (the source
reads it off the joined row; an absent row renders as empty). -/
def categoryTitle (s : Store) (cid : Nat) : String :=
  match s.categories.find? (fun c => c.id == cid) with
  | some c => c.title
  | none => ""
/-- Resolves `types_product.title` for a product's foreign key. -/
def typesTitle (s : Store) (tid : Nat) : String :=
  match s.types.find? (fun t => t.id == tid) with
  | some t => t.title
  | none => ""
/-- The images of one product (`obj.images`), in primary-key order:
the store keeps the image table in insertion order and primary keys are
assigned increasingly, so the filtered sublist is already ordered the
way `first()`'s implicit pk ordering would order it. -/
def productImages (s : Store) (pid : Nat) : List ProductImage :=
  s.images.filter (fun img => img.product == pid)
/-- Embeds `ProductSerializer.get_first_image`: `obj.images.first()`
(the earliest-inserted image, per the pk-order remark on
`productImages`), absolutized when a request context is present; `None`
when the product has no images. -/
def get_first_image (s : Store) (ctx : Option String) (pid : Nat) : Option String :=
  match productImages s pid with
  | [] => none
  | img :: _ => some (buildUri ctx img.image)
/-- Embeds `ProductImageSerializer`: id, raw image reference, resolved
image_url, owning product. Every stored row has an image reference, so
`get_image_url` takes its non-None branch. -/
def serializeImage (ctx : Option String) (img : ProductImage) : ImageOut :=
  { id := img.id
    image := img.image
    image_url := some (buildUri ctx img.image)
    product := img.product }
/-- Embeds `ProductSerializer` on one product: the full read
representation with resolved category title, type title, first image
and nested images. -/
def serializeProduct (s : Store) (ctx : Option String) (p : Product) : ProductOut :=
  { id := p.id
    uuid := p.uuid
    title := p.title
    description := p.description
    category := p.category
    category_title := categoryTitle s p.category
    types_product := p.types_product
    types_title := typesTitle s p.types_product
    created_at := p.created_at
    price := p.price
    first_image := get_first_image s ctx p.id
    images := (productImages s p.id).map (serializeImage ctx)
    is_active := p.is_active }
/-- Serializes the whole product table (`ProductSerializer(many=True)`
over the list queryset). -/
def serializeProducts (s : Store) (ctx : Option String) : List ProductOut :=
  s.products.map (serializeProduct s ctx)
/-- Embeds `CategorySerializer` on one category row (same four fields
as the `.values(...)` projection in `CategoryAPIView.get_queryset`). -/
def serializeCategory (c : Category) : CatOut :=
  { id := c.id, title := c.title, image := c.image, crated_at := c.crated_at }
/-! ### View handlers (`views.py`) -/
/-- Eager-loading annotations a queryset carries: the `select_related`
and `prefetch_related` relation names. -/
structure QuerySpec where
  selectRelated : List String
  prefetchRelated : List String
deriving DecidableEq
/-- Embeds `ProductAPIView.get_queryset`: the full product table with
eager-loading of `category` and `types_product` (select_related) and of
`images` (prefetch_related). -/
def product_get_queryset (s : Store) : List Product × QuerySpec :=
  (s.products, { selectRelated := ["category", "types_product"]
                 prefetchRelated := ["images"] })
/-- Embeds `ProductAPIView.list`, the application-level product cache:
check the fixed key `product_list`; on a hit return the cached payload
verbatim (the cache untouched); on a miss serialize the eager-loaded
queryset, store it under the key with a 5-minute TTL, and return it. -/
def productList_inner (s : Store) (ctx : Option String) (c : Cache) : CVal × Cache :=
  match cacheGet c "product_list" with
  | some cached => (cached, c)
  | none =>
    let fresh := CVal.products ((product_get_queryset s).1.map (serializeProduct s ctx))
    (fresh, cacheSet c "product_list" fresh (60 * 5))
/-- Cache key under which the `cache_page(60 * 5)` decorator on
`ProductAPIView.dispatch` stores the rendered response. `cache_page`
keys by request identity (method, path, headers), so its key is a
different string from the application-level key `product_list`. -/
def productPageKey : String := "cache_page.GET.product-list"
/-- Embeds a `GET product-list` request end to end: the
`cache_page(60 * 5)` response cache wraps the view, so on an outer hit
the stored response is returned without running the view at all; on an
outer miss the view body (`productList_inner`) runs and the response it
produces is stored under the page key for 5 minutes. -/
def productListGET (s : Store) (ctx : Option String) (c : Cache) : CVal × Cache :=
  match cacheGet c productPageKey with
  | some cached => (cached, c)
  | none =>
    let (v, c1) := productList_inner s ctx c
    (v, cacheSet c1 productPageKey v (60 * 5))
/-- Embeds `ProductCreateView.create`: validate (`is_valid` with
`raise_exception=True`, so a failure returns the 400 field-keyed error
mapping), save the product through the creation serializer, delete the
`product_list` cache key, and return the created product's full read
representation (via `ProductSerializer` with the request context) with
status 201. -/
def createHandler (s : Store) (ctx : Option String) (c : Cache) (p : CreatePayload) :
    Except (List (String × String)) (ProductOut × Nat) × Store × Cache :=
  match runValidators s p with
  | Except.error errs => (Except.error errs, s, c)
  | Except.ok d =>
    let (s2, prod) := serializerCreate s d
    let c2 := cacheDelete c "product_list"
    (Except.ok (serializeProduct s2 ctx prod, 201), s2, c2)
/-- Embeds `CategoryAPIView.get_queryset`: reads the `category_list`
cache key, on a miss stores the `.values(...)` projection of the
category table under it with a 15-minute TTL — and then returns a fresh
`Category.objects.all()` queryset regardless, never using the cached
value. -/
def category_get_queryset (s : Store) (c : Cache) : List Category × Cache :=
  match cacheGet c "category_list" with
  | some _ => (s.categories, c)
  | none =>
    (s.categories,
     cacheSet c "category_list" (CVal.categories (s.categories.map serializeCategory))
       (60 * 15))
/-- The category-list response body as built by the handler:
`CategorySerializer(many=True)` over the queryset
`category_get_queryset` returned. -/
def categoryListResponse (s : Store) (c : Cache) : CVal × Cache :=
  let (qs, c1) := category_get_queryset s c
  (CVal.categories (qs.map serializeCategory), c1)
/-! ### Concrete fixtures used by witnesses and counterexamples -/
/-- A store holding one Category and one Types row and no products:
the administrative prerequisites of a Product creation. -/
def demoStore : Store :=
  { categories := [{ id := 1, title := "Phones", image := "category/phones.png", crated_at := 0 }]
    types := [{ id := 7, title := "Smartphones", description := "Handheld smart devices", category := 1, crated_at := 0 }]
    products := []
    images := []
    nextProductId := 1
    nextImageId := 1
    nextUuid := 100
    clock := 5 }
/-- A valid creation payload without images. -/
def demoPayload : CreatePayload :=
  { title := "Pixel 9"
    description := "A nice android phone"
    category := 1
    types_product := 7
    price := "19.99"
    is_active := true
    images := [] }
/-- A valid creation payload with two images. -/
def demoPayloadImgs : CreatePayload :=
  { demoPayload with images := ["product/a.png", "product/b.png"] }
/-- Whether the price validator accepts a price string. -/
def acceptsPrice (v : String) : Bool :=
  match validate_price v with
  | Except.ok _ => true
  | Except.error _ => false
/-- Stated from the claim's words, for comparison with the code: a
price is to be accepted exactly when it parses as a number that is
strictly positive. -/
def specPriceStrictlyPositive (v : String) : Bool :=
  match pyFloatOfString v with
  | none => false
  | some f => pyStrictPos f
/-- Stated from the amended claim's words: a price is accepted exactly
when it parses via `float(...)` and the parsed value does not compare
less-or-equal to zero. -/
def specPriceAccepted (v : String) : Bool :=
  match pyFloatOfString v with
  | none => false
  | some f => !pyNonpositive f
/-- The image rows the creation loop inserts for product `pid`,
starting at primary key `i`, one row per submitted image in submission
order. -/
def mkImgs : Nat → Nat → List String → List ProductImage
  | _, _, [] => []
  | i, pid, url :: rest =>
    { id := i, product := pid, image := url } :: mkImgs (i + 1) pid rest
/-- Cache state after a first `GET product-list` against `demoStore`. -/
def c1FirstGetCache : Cache := (productListGET demoStore none emptyCache).2
/-- Result of a valid `POST product-create` issued right after that
first GET. -/
def c1Create : Except (List (String × String)) (ProductOut × Nat) × Store × Cache :=
  createHandler demoStore none c1FirstGetCache demoPayload
/-- The `GET product-list` immediately following the creation (within
every TTL window). -/
def c1SecondGet : CVal × Cache := productListGET c1Create.2.1 none c1Create.2.2
/-- A cache differing from the empty cache only at `category_list`. -/
def c10Alt : Cache :=
  cacheSet emptyCache "category_list" (CVal.other "stale entry") (60 * 15)
/-- A cache whose `product_list` key holds an arbitrary payload. -/
def c4Hit : Cache :=
  cacheSet emptyCache "product_list" (CVal.other "cached payload") (60 * 5)
/-- A cache populated at `product_list` and at an unrelated key. -/
def c8Base : Cache :=
  cacheSet (cacheSet emptyCache "category_list" (CVal.other "cats") (60 * 15))
    "product_list" (CVal.products []) (60 * 5)
/-- An otherwise-valid payload naming a nonexistent category. -/
def badCatPayload : CreatePayload := { demoPayload with category := 999 }
/-- An otherwise-valid payload naming a nonexistent type. -/
def badTypePayload : CreatePayload := { demoPayload with types_product := 999 }
/-- An otherwise-valid payload with a too-short title. -/
def badTitlePayload : CreatePayload := { demoPayload with title := "  ab  " }

/-! ### Helper lemmas -/
theorem mem_errOf {α : Type} {field : String} {r : Except String α} {n e : String} :
    (n, e) ∈ errOf field r ↔ n = field ∧ r = Except.error e := by
  cases r <;> simp [errOf] <;> exact fun _ => eq_comm
theorem mem_fieldErrors_iff (s : Store) (p : CreatePayload) (n e : String) :
    (n, e) ∈ fieldErrors s p ↔
      (n = "title" ∧ validate_title p.title = Except.error e) ∨
      (n = "description" ∧ validate_description p.description = Except.error e) ∨
      (n = "category" ∧ validate_category s p.category = Except.error e) ∨
      (n = "types_product" ∧ validate_types_product s p.types_product = Except.error e) ∨
      (n = "price" ∧ validate_price p.price = Except.error e) := by
  simp [fieldErrors, List.mem_append, mem_errOf]
theorem validate_title_eq_error (t e : String) :
    validate_title t = Except.error e ↔
      ((pyStrip t).length < 3 ∧ e = titleTooShortMsg) := by
  unfold validate_title
  split <;> simp_all <;> exact eq_comm
theorem validate_description_eq_error (t e : String) :
    validate_description t = Except.error e ↔
      ((pyStrip t).length < 10 ∧ e = descTooShortMsg) := by
  unfold validate_description
  split <;> simp_all <;> exact eq_comm
theorem validate_category_eq_error (s : Store) (cid : Nat) (e : String) :
    validate_category s cid = Except.error e ↔
      (categoryExists s cid = false ∧ e = categoryMissingMsg) := by
  unfold validate_category
  split <;> simp_all <;> exact eq_comm
theorem validate_types_product_eq_error (s : Store) (tid : Nat) (e : String) :
    validate_types_product s tid = Except.error e ↔
      (typesExists s tid = false ∧ e = typesMissingMsg) := by
  unfold validate_types_product
  split <;> simp_all <;> exact eq_comm
theorem exists_validate_price_error (v : String) :
    (∃ e, validate_price v = Except.error e) ↔ acceptsPrice v = false := by
  unfold acceptsPrice
  cases h : validate_price v <;> simp
theorem createHandler_of_mem_fieldErrors (s : Store) (ctx : Option String)
    (c : Cache) (p : CreatePayload) (x : String × String)
    (hx : x ∈ fieldErrors s p) :
    createHandler s ctx c p = (Except.error (fieldErrors s p), s, c) := by
  cases h : fieldErrors s p with
  | nil => rw [h] at hx; cases hx
  | cons a l => simp [createHandler, runValidators, h]
theorem createHandler_of_valid (s : Store) (ctx : Option String)
    (c : Cache) (p : CreatePayload) (hv : fieldErrors s p = []) :
    createHandler s ctx c p =
      (Except.ok (serializeProduct (serializerCreate s (validatedOf p)).1 ctx
        (serializerCreate s (validatedOf p)).2, 201),
       (serializerCreate s (validatedOf p)).1,
       cacheDelete c "product_list") := by
  simp [createHandler, runValidators, hv]
theorem addImages_images (pid : Nat) (l : List String) (st : Store) :
    (addImages pid st l).images = st.images ++ mkImgs st.nextImageId pid l := by
  induction l generalizing st with
  | nil => simp [addImages, mkImgs]
  | cons url rest ih =>
    simp [addImages, mkImgs, ih, List.append_assoc]
theorem filter_mkImgs (pid : Nat) (l : List String) (i : Nat) :
    (mkImgs i pid l).filter (fun img => img.product == pid) = mkImgs i pid l := by
  induction l generalizing i with
  | nil => simp [mkImgs]
  | cons url rest ih => simp [mkImgs, List.filter, ih]
theorem mkImgs_map_image (pid : Nat) (l : List String) (i : Nat) :
    (mkImgs i pid l).map (fun img => img.image) = l := by
  induction l generalizing i with
  | nil => simp [mkImgs]
  | cons url rest ih => simp [mkImgs, ih]
theorem addProductRow_fields (s : Store) (d : ValidatedData) :
    (addProductRow s d).1.images = s.images ∧
    (addProductRow s d).1.nextImageId = s.nextImageId ∧
    (addProductRow s d).2.id = s.nextProductId := by
  simp [addProductRow]
/-- After a successful creation, the created product's image rows are
exactly the submitted images, in submission order, with fresh primary
keys: no pre-existing row can reference the fresh product id. -/
theorem productImages_serializerCreate (s : Store) (d : ValidatedData)
    (hwf : Store.WF s) :
    productImages (serializerCreate s d).1 (serializerCreate s d).2.id =
      mkImgs s.nextImageId s.nextProductId d.images := by
  have hold : s.images.filter (fun img => img.product == s.nextProductId) = [] := by
    rw [List.filter_eq_nil_iff]
    intro a ha
    have := hwf a ha
    simp only [beq_iff_eq]
    omega
  simp only [serializerCreate, productImages, addProductRow, addImages_images]
  simp [List.filter_append, hold, filter_mkImgs]

/-! ### Claim theorems and witnesses -/
/-- C1: the creation succeeds and only deletes the application-level
`product_list` key, but `ProductAPIView` is additionally wrapped in
`cache_page(60 * 5)`; that response-cache entry is keyed differently
and survives the deletion, so the very next `GET product-list` replays
the pre-creation payload (the empty product list) and does not observe
the newly created Product — contradicting the claimed staleness
contract. -/
theorem C1_next_get_misses_new_product :
    c1Create.1.isOk = true ∧
    c1Create.2.1.products.length = 1 ∧
    c1SecondGet.1 = CVal.products [] ∧
    c1SecondGet.1 ≠ CVal.products (serializeProducts c1Create.2.1 none) := by
  decide
/-- C2: `ProductCreateSerializer.create` persists the Product row and
then each image row with no enclosing transaction (Django autocommit),
so when persisting the image at index 1 of 2 fails, the committed,
reader-visible state holds the new Product with exactly one of its two
submitted images — neither all rows nor none, contradicting the claimed
atomicity. -/
theorem C2_partial_commit_visible :
    (createFailingAt demoStore (validatedOf demoPayloadImgs) 1).products.length = 1 ∧
    ((productImages (createFailingAt demoStore (validatedOf demoPayloadImgs) 1)
        demoStore.nextProductId).map (fun img => img.image) = ["product/a.png"]) ∧
    (validatedOf demoPayloadImgs).images = ["product/a.png", "product/b.png"] := by
  decide
/-- C5 counterexample: the claim says a price is accepted if and only
if it parses as a strictly positive number, but the string nan parses
via `float(...)` to a value that is not strictly positive and is still
accepted, because the source's `price_float <= 0` test is false for
nan. -/
theorem C5_counterexample_nan :
    acceptsPrice "nan" = true ∧ specPriceStrictlyPositive "nan" = false := by
  decide
/-- C5 (amended): a price string is accepted exactly when `float(...)`
parses it and the parsed value does not compare less-or-equal to zero;
on finite values that test coincides with strict positivity, and the
four quoted examples behave as the claim lists them. -/
theorem C5_price_validation :
    (∀ v, acceptsPrice v = specPriceAccepted v) ∧
    acceptsPrice "-5" = false ∧
    acceptsPrice "abc" = false ∧
    acceptsPrice "0" = false ∧
    acceptsPrice "19.99" = true ∧
    (∀ m e : Int, pyNonpositive (PyFloat.finite m e) =
      !pyStrictPos (PyFloat.finite m e)) := by
  refine ⟨?_, by decide, by decide, by decide, by decide, ?_⟩
  · intro v
    cases h : pyFloatOfString v with
    | none => simp [acceptsPrice, specPriceAccepted, validate_price, h]
    | some f =>
      by_cases hf : pyNonpositive f <;>
        simp [acceptsPrice, specPriceAccepted, validate_price, h, hf]
  · intro m e
    simp only [pyNonpositive, pyStrictPos, ← decide_not, decide_eq_decide]
    omega
/-- C9: the price validator accepts the non-finite strings nan, inf
and Infinity — nan because nan fails the `<= 0` comparison — and a
whole creation with price inf succeeds, so a Product can be created
with a non-finite price. -/
theorem C9_nonfinite_prices_accepted :
    acceptsPrice "nan" = true ∧
    acceptsPrice "inf" = true ∧
    acceptsPrice "Infinity" = true ∧
    pyFloatOfString "nan" = some PyFloat.nan ∧
    pyNonpositive PyFloat.nan = false ∧
    (createHandler demoStore none emptyCache
        { demoPayload with price := "inf" }).1.isOk = true := by
  decide

/-! ### Claim theorems and witnesses -/
/-- C10: the `category_list` cache entry written inside
`CategoryAPIView.get_queryset` is never read to build the response —
the handler always serializes a fresh `Category.objects.all()` — so
two cache states agreeing outside that key yield identical
category-list response bodies. -/
theorem C10_category_cache_write_dead (s : Store) (c1 c2 : Cache)
    (_h : ∀ k, k ≠ "category_list" → c1 k = c2 k) :
    (categoryListResponse s c1).1 = (categoryListResponse s c2).1 := by
  have hresp : ∀ c : Cache, (categoryListResponse s c).1 =
      CVal.categories (s.categories.map serializeCategory) := by
    intro c
    unfold categoryListResponse category_get_queryset
    cases cacheGet c "category_list" <;> simp
  rw [hresp c1, hresp c2]
/-- Witness for C10 at a concrete pair of caches that differ exactly
at the `category_list` key. -/
theorem C10_witness :
    (categoryListResponse demoStore emptyCache).1 =
      (categoryListResponse demoStore c10Alt).1 :=
  C10_category_cache_write_dead demoStore emptyCache c10Alt
    (by intro k hk; simp [c10Alt, cacheSet, emptyCache, hk])
/-- C4: `ProductAPIView.list` is a read-through cache over the fixed
key `product_list`: on a hit it returns the cached payload verbatim
with the cache untouched (so a replay against identical cache state is
idempotent); on a miss it serializes the queryset — which eager-loads
`category`, `types_product` and `images` — stores it under the key with
a 5-minute TTL, and returns it. -/
theorem C4_product_list_read_through (s : Store) (ctx : Option String) (c : Cache) :
    (∀ v, cacheGet c "product_list" = some v → productList_inner s ctx c = (v, c)) ∧
    (cacheGet c "product_list" = none →
      productList_inner s ctx c =
        (CVal.products (serializeProducts s ctx),
         cacheSet c "product_list" (CVal.products (serializeProducts s ctx)) (60 * 5))) ∧
    ((product_get_queryset s).2 =
      { selectRelated := ["category", "types_product"], prefetchRelated := ["images"] }) ∧
    ((productList_inner s ctx (productList_inner s ctx c).2).1 =
      (productList_inner s ctx c).1) := by
  refine ⟨?_, ?_, rfl, ?_⟩
  · intro v hv
    simp [productList_inner, hv]
  · intro hn
    simp [productList_inner, hn, serializeProducts, product_get_queryset]
  · cases h : cacheGet c "product_list" with
    | some v => simp [productList_inner, h]
    | none =>
      simp only [cacheGet] at h
      simp [productList_inner, cacheGet, cacheSet, h]
/-- Witness for C4: a concrete hit returns the cached payload verbatim
and a concrete miss populates the key. -/
theorem C4_witness :
    productList_inner demoStore none c4Hit = (CVal.other "cached payload", c4Hit) ∧
    productList_inner demoStore none emptyCache =
      (CVal.products (serializeProducts demoStore none),
       cacheSet emptyCache "product_list"
         (CVal.products (serializeProducts demoStore none)) (60 * 5)) :=
  ⟨(C4_product_list_read_through demoStore none c4Hit).1
      (CVal.other "cached payload") (by decide),
   (C4_product_list_read_through demoStore none emptyCache).2.1 (by decide)⟩
/-- C8: a successful creation deletes exactly the `product_list` cache
entry — that key reads as absent afterwards and every other key is
unchanged — and returns, with status 201 and independently of the cache
contents, the created product's full read representation built by
`ProductSerializer`. -/
theorem C8_create_frame (s : Store) (ctx : Option String) (c cAlt : Cache)
    (p : CreatePayload) (hv : fieldErrors s p = []) :
    ((createHandler s ctx c p).2.2 "product_list" = none) ∧
    (∀ k, k ≠ "product_list" → (createHandler s ctx c p).2.2 k = c k) ∧
    ((createHandler s ctx c p).1 =
      Except.ok (serializeProduct (serializerCreate s (validatedOf p)).1 ctx
        (serializerCreate s (validatedOf p)).2, 201)) ∧
    ((createHandler s ctx cAlt p).1 = (createHandler s ctx c p).1) := by
  rw [createHandler_of_valid s ctx c p hv, createHandler_of_valid s ctx cAlt p hv]
  refine ⟨?_, ?_, rfl, rfl⟩
  · simp [cacheDelete]
  · intro k hk
    simp [cacheDelete, hk]
/-- Witness for C8 at a concrete valid creation: the `product_list`
entry is gone and the unrelated `category_list` entry is untouched. -/
theorem C8_witness :
    ((createHandler demoStore none c8Base demoPayload).2.2 "product_list" = none) ∧
    ((createHandler demoStore none c8Base demoPayload).2.2 "category_list" =
      c8Base "category_list") :=
  ⟨(C8_create_frame demoStore none c8Base emptyCache demoPayload (by decide)).1,
   (C8_create_frame demoStore none c8Base emptyCache demoPayload (by decide)).2.1
     "category_list" (by decide)⟩
/-- C3: for a valid creation payload the 201 response's `first_image`
is the resolved URL of the first element of the submitted images list —
absent when no images are submitted — and the created product's image
rows are exactly the submitted images in submission order, so the
earliest-inserted image is the first submitted one. -/
theorem C3_first_image (s : Store) (ctx : Option String) (c : Cache)
    (p : CreatePayload) (hwf : Store.WF s) (hv : fieldErrors s p = []) :
    ((createHandler s ctx c p).1 =
      Except.ok (serializeProduct (serializerCreate s (validatedOf p)).1 ctx
        (serializerCreate s (validatedOf p)).2, 201)) ∧
    ((serializeProduct (serializerCreate s (validatedOf p)).1 ctx
        (serializerCreate s (validatedOf p)).2).first_image =
      p.images.head?.map (buildUri ctx)) ∧
    ((productImages (serializerCreate s (validatedOf p)).1
        (serializerCreate s (validatedOf p)).2.id).map (fun img => img.image) =
      p.images) := by
  have hpi := productImages_serializerCreate s (validatedOf p) hwf
  refine ⟨?_, ?_, ?_⟩
  · rw [createHandler_of_valid s ctx c p hv]
  · show (get_first_image (serializerCreate s (validatedOf p)).1 ctx
        (serializerCreate s (validatedOf p)).2.id) = p.images.head?.map (buildUri ctx)
    unfold get_first_image
    rw [hpi]
    show (match mkImgs s.nextImageId s.nextProductId p.images with
      | [] => none
      | img :: _ => some (buildUri ctx img.image)) = p.images.head?.map (buildUri ctx)
    cases p.images <;> simp [mkImgs]
  · rw [hpi]
    show (mkImgs s.nextImageId s.nextProductId p.images).map (fun img => img.image) = p.images
    exact mkImgs_map_image s.nextProductId p.images s.nextImageId
/-- Witness for C3 at a concrete valid creation with two images. -/
theorem C3_witness :
    ((serializeProduct (serializerCreate demoStore (validatedOf demoPayloadImgs)).1 none
        (serializerCreate demoStore (validatedOf demoPayloadImgs)).2).first_image =
      demoPayloadImgs.images.head?.map (buildUri none)) ∧
    ((productImages (serializerCreate demoStore (validatedOf demoPayloadImgs)).1
        (serializerCreate demoStore (validatedOf demoPayloadImgs)).2.id).map
        (fun img => img.image) = demoPayloadImgs.images) :=
  ⟨(C3_first_image demoStore none emptyCache demoPayloadImgs (by decide) (by decide)).2.1,
   (C3_first_image demoStore none emptyCache demoPayloadImgs (by decide) (by decide)).2.2⟩
/-- C6: a creation payload whose category identity resolves to no
Category row always collects `InvalidReference(category)` into the
field-keyed 400 mapping — whatever the other fields hold — and the
handler rejects the request without touching store or cache; likewise
for a type identity resolving to no Types row. -/
theorem C6_invalid_reference (s : Store) (ctx : Option String) (c : Cache)
    (p : CreatePayload) :
    (categoryExists s p.category = false →
      ("category", categoryMissingMsg) ∈ fieldErrors s p ∧
      createHandler s ctx c p = (Except.error (fieldErrors s p), s, c)) ∧
    (typesExists s p.types_product = false →
      ("types_product", typesMissingMsg) ∈ fieldErrors s p ∧
      createHandler s ctx c p = (Except.error (fieldErrors s p), s, c)) := by
  constructor
  · intro h
    have hm : ("category", categoryMissingMsg) ∈ fieldErrors s p := by
      rw [mem_fieldErrors_iff]
      exact Or.inr (Or.inr (Or.inl ⟨rfl,
        (validate_category_eq_error s p.category categoryMissingMsg).mpr ⟨h, rfl⟩⟩))
    exact ⟨hm, createHandler_of_mem_fieldErrors s ctx c p _ hm⟩
  · intro h
    have hm : ("types_product", typesMissingMsg) ∈ fieldErrors s p := by
      rw [mem_fieldErrors_iff]
      exact Or.inr (Or.inr (Or.inr (Or.inl ⟨rfl,
        (validate_types_product_eq_error s p.types_product typesMissingMsg).mpr ⟨h, rfl⟩⟩)))
    exact ⟨hm, createHandler_of_mem_fieldErrors s ctx c p _ hm⟩
/-- Witness for C6 at concrete payloads whose only flaw is the dangling
category (respectively type) reference. -/
theorem C6_witness :
    ("category", categoryMissingMsg) ∈ fieldErrors demoStore badCatPayload ∧
    ("types_product", typesMissingMsg) ∈ fieldErrors demoStore badTypePayload :=
  ⟨((C6_invalid_reference demoStore none emptyCache badCatPayload).1 (by decide)).1,
   ((C6_invalid_reference demoStore none emptyCache badTypePayload).2 (by decide)).1⟩
/-- C7: a title of trimmed length under 3 always puts
`InvalidField(title)` into the 400 error mapping regardless of the
other fields, and the five validation rules are checked independently
and aggregated: each field appears in the mapping exactly when its own
validator fails, never because another field failed first. -/
theorem C7_title_and_aggregation (s : Store) (ctx : Option String) (c : Cache)
    (p : CreatePayload) :
    ((pyStrip p.title).length < 3 →
      ("title", titleTooShortMsg) ∈ fieldErrors s p ∧
      createHandler s ctx c p = (Except.error (fieldErrors s p), s, c)) ∧
    ((∃ e, ("title", e) ∈ fieldErrors s p) ↔ (pyStrip p.title).length < 3) ∧
    ((∃ e, ("description", e) ∈ fieldErrors s p) ↔ (pyStrip p.description).length < 10) ∧
    ((∃ e, ("category", e) ∈ fieldErrors s p) ↔ categoryExists s p.category = false) ∧
    ((∃ e, ("types_product", e) ∈ fieldErrors s p) ↔ typesExists s p.types_product = false) ∧
    ((∃ e, ("price", e) ∈ fieldErrors s p) ↔ acceptsPrice p.price = false) := by
  refine ⟨?_, ?_, ?_, ?_, ?_, ?_⟩
  · intro h
    have hm : ("title", titleTooShortMsg) ∈ fieldErrors s p := by
      rw [mem_fieldErrors_iff]
      exact Or.inl ⟨rfl, (validate_title_eq_error p.title titleTooShortMsg).mpr ⟨h, rfl⟩⟩
    exact ⟨hm, createHandler_of_mem_fieldErrors s ctx c p _ hm⟩
  · simp [mem_fieldErrors_iff, validate_title_eq_error, validate_description_eq_error,
      validate_category_eq_error, validate_types_product_eq_error]
  · simp [mem_fieldErrors_iff, validate_title_eq_error, validate_description_eq_error,
      validate_category_eq_error, validate_types_product_eq_error]
  · simp [mem_fieldErrors_iff, validate_title_eq_error, validate_description_eq_error,
      validate_category_eq_error, validate_types_product_eq_error]
  · simp [mem_fieldErrors_iff, validate_title_eq_error, validate_description_eq_error,
      validate_category_eq_error, validate_types_product_eq_error]
  · rw [← exists_validate_price_error]
    simp [mem_fieldErrors_iff, validate_title_eq_error, validate_description_eq_error,
      validate_category_eq_error, validate_types_product_eq_error]
/-- Witness for C7 at a concrete payload whose only flaw is the short
title. -/
theorem C7_witness :
    ("title", titleTooShortMsg) ∈ fieldErrors demoStore badTitlePayload ∧
    createHandler demoStore none emptyCache badTitlePayload =
      (Except.error (fieldErrors demoStore badTitlePayload), demoStore, emptyCache) :=
  (C7_title_and_aggregation demoStore none emptyCache badTitlePayload).1 (by decide)
